import Mathlib

/-!
Shallow embedding of `download.py` (CTFd downloader) and verification of its
specification claims.  Pure text transformations are modelled character by
character; the network and the file system are modelled as explicit inputs
and as traces of write events.
-/

namespace CtfdDownload

/-! ### Character classes used by the regexes in the source -/

/-- The characters matched by Python's regex class `\s` (ASCII range). -/
def isPySpace (c : Char) : Bool :=
  c = ' ' || c = '\t' || c = '\n' || c = '\r' || c = '\x0b' || c = '\x0c'

/-- The characters kept by the regex class `[a-z0-9-]` of `slugify`. -/
def isAllowed (c : Char) : Bool :=
  ('a' ≤ c && c ≤ 'z') || ('0' ≤ c && c ≤ '9') || c = '-'

/-! ### The slug engine (`slugify`, download.py lines 47-48) -/

/-- Model of `re.sub(r"[\s]+", "-", s)`: every maximal run of whitespace is
replaced by a single dash.  The flag records whether we are inside a
whitespace run that has already emitted its dash. -/
def collapseWSAux : Bool → List Char → List Char
  | _, [] => []
  | inRun, c :: cs =>
    if isPySpace c then
      if inRun then collapseWSAux true cs
      else '-' :: collapseWSAux true cs
    else c :: collapseWSAux false cs

/-- Model of Python's `str.strip("-")`: remove all leading and trailing
dashes. -/
def stripDashes (l : List Char) : List Char :=
  List.reverse (List.dropWhile (fun c => c = '-')
    (List.reverse (List.dropWhile (fun c => c = '-') l)))

/-- `slugify` from the source:
`"🔲 " + re.sub(r"[^a-z0-9-]", "", re.sub(r"[\s]+", "-", text.lower())).strip("-")`. -/
def slugify (text : String) : String :=
  "🔲 " ++ String.mk (stripDashes (List.filter isAllowed
    (collapseWSAux false (text.data.map Char.toLower))))

lemma length_dropWhile_le_self (p : Char → Bool) (l : List Char) :
    (l.dropWhile p).length ≤ l.length := by
  induction l with
  | nil => simp [List.dropWhile]
  | cons c cs ih =>
    by_cases h : p c
    · simpa [List.dropWhile, h] using Nat.le_succ_of_le ih
    · simp [List.dropWhile, h]

/-- Reference transform, written from the specification's words: lowercase,
collapse every whitespace run to a single separator, remove all characters
outside `[a-z0-9-]`, trim leading and trailing separators, and put the fixed
marker in front.  Its collapsing step consumes each whitespace run in one
recursive step, unlike the state-flag automaton of `collapseWSAux`. -/
def ref_collapse : List Char → List Char
  | [] => []
  | c :: cs =>
    if isPySpace c then '-' :: ref_collapse (cs.dropWhile isPySpace)
    else c :: ref_collapse cs
termination_by l => l.length
decreasing_by
  · exact Nat.lt_succ_of_le (length_dropWhile_le_self _ _)
  · simp

/-- The specification's slug transform, assembled from `ref_collapse`. -/
def ref_slugify (name : String) : String :=
  "🔲 " ++ String.mk (stripDashes (List.filter isAllowed
    (ref_collapse (name.data.map Char.toLower))))

/-! #### Equivalence of the two collapsing automata -/

lemma collapseWSAux_true (l : List Char) :
    collapseWSAux true l = collapseWSAux false (l.dropWhile isPySpace) := by
  induction l with
  | nil => rfl
  | cons c cs ih =>
    by_cases h : isPySpace c
    · simp only [collapseWSAux, h, if_true, List.dropWhile_cons, ih]
    · simp only [collapseWSAux, h, if_false, List.dropWhile_cons,
        Bool.false_eq_true]

lemma collapseWS_eq_ref_collapse (l : List Char) :
    collapseWSAux false l = ref_collapse l := by
  induction l using ref_collapse.induct with
  | case1 => simp [collapseWSAux, ref_collapse]
  | case2 c cs h ih =>
    rw [ref_collapse]
    simp only [collapseWSAux, h, if_true]
    rw [collapseWSAux_true, ih]
    simp
  | case3 c cs h ih =>
    rw [ref_collapse]
    simp [collapseWSAux, h, ih]

lemma slugify_eq_ref (s : String) : slugify s = ref_slugify s := by
  unfold slugify ref_slugify
  rw [collapseWS_eq_ref_collapse]

/-! ### Path handling (`os.path.join`, `urlparse`) -/

/-- Model of Python's `os.path.join(a, b)` for a single right operand. -/
def path_join (a b : String) : String :=
  if b.data.head? = some '/' then b
  else if a.data = [] ∨ a.data.getLast? = some '/' then a ++ b
  else a ++ "/" ++ b

/-- Keep the characters of `l` strictly before the first occurrence of
`stop`. -/
def cutAt (stop : Char) (l : List Char) : List Char :=
  l.takeWhile (fun c => c ≠ stop)

/-- If the list contains `"://"` before any `/`, return what follows it
(scheme and separator removed); otherwise `none`.  Models the scheme/netloc
split of `urlparse` for the URL shapes a CTFd server emits. -/
def split_scheme : List Char → Option (List Char)
  | [] => none
  | ':' :: '/' :: '/' :: rest => some rest
  | c :: cs => if c = '/' then none else split_scheme cs

/-- Model of `urlparse(url).path`: fragment and query are cut off; for an
absolute URL the netloc (everything up to the next `/`) is skipped. -/
def urlparse_path (url : String) : List Char :=
  let noQuery := cutAt '?' (cutAt '#' url.data)
  match split_scheme noQuery with
  | some rest => rest.dropWhile (fun c => c ≠ '/')
  | none => noQuery

/-- Model of `urlparse(file_url).path.split("/")[-1]`: the segment of the
URL path after its last slash. -/
def url_basename (url : String) : String :=
  String.mk (((urlparse_path url).reverse.takeWhile (fun c => c ≠ '/')).reverse)

/-! ### Data model: challenge records and API responses -/

/-- A challenge JSON object.  Each field models one key of the dict; `none`
means the key is absent (`dict.get` supplies the default, `dict[k]` raises
`KeyError`). -/
structure Challenge where
  id : Option Nat
  name : Option String
  category : Option String
  description : Option String
  files : Option (List String)
deriving DecidableEq, Repr

/-- Python truthiness of the dict underlying a `Challenge`: an empty dict
(no keys at all) is falsy. -/
def Challenge.isFalsy (c : Challenge) : Bool :=
  c.id.isNone && c.name.isNone && c.category.isNone &&
    c.description.isNone && c.files.isNone

/-- The body of a `GET /challenges` response after `json.loads`:
either undecodable, or an object whose `data` key may be absent. -/
inductive ListResponse
  | malformed
  | envelope (data : Option (List Challenge))
deriving DecidableEq, Repr

/-- The body of a `GET /challenges/{id}` response after `json.loads`. -/
inductive DetailResponse
  | malformed
  | envelope (data : Option Challenge)
deriving DecidableEq, Repr

/-! ### API client (`fetch_challenges`, `fetch_challenge_details`) -/

/-- `fetch_challenges` (lines 60-66): `json.loads(...).get("data", [])`.
A decode failure is caught and turns into `sys.exit(1)`; a missing `data`
key is silently defaulted to `[]` by `.get` and raises nothing. -/
def fetch_challenges : ListResponse → Except Nat (List Challenge)
  | .malformed => .error 1
  | .envelope d => .ok (d.getD [])

/-- `fetch_challenge_details` (lines 68-75): `json.loads(...)["data"]`.
Both a decode failure and a missing `data` key (a `KeyError`) are caught
and produce `None`. -/
def fetch_challenge_details : DetailResponse → Option Challenge
  | .malformed => none
  | .envelope none => none
  | .envelope (some c) => some c

/-! ### File-system trace model -/

/-- One `open(path, "w")`/`write` event. -/
structure WriteEvent where
  path : String
  content : String
deriving DecidableEq, Repr

/-- A file system: contents by absolute path. -/
def FS : Type := String → Option String

/-- Writing truncates and replaces: the new content fully replaces whatever
was at the path before. -/
def fsWrite (f : FS) (w : WriteEvent) : FS :=
  fun q => if q = w.path then some w.content else f q

/-- Apply a sequence of write events, in order, to a file system. -/
def applyWrites (f : FS) (ws : List WriteEvent) : FS :=
  ws.foldl fsWrite f

/-- The content left at `p` by the write list, if any write touches `p`
(the later write wins). -/
def lastContent : List WriteEvent → String → Option String
  | [], _ => none
  | w :: ws, p =>
    match lastContent ws p with
    | some c => some c
    | none => if p = w.path then some w.content else none

lemma applyWrites_apply (ws : List WriteEvent) (f : FS) (p : String) :
    applyWrites f ws p =
      match lastContent ws p with
      | some c => some c
      | none => f p := by
  induction ws generalizing f with
  | nil => rfl
  | cons w ws ih =>
    show applyWrites (fsWrite f w) ws p = _
    rw [ih]
    rcases h : lastContent ws p with _ | c
    · by_cases hp : p = w.path
      · subst hp
        simp [lastContent, h, fsWrite]
      · simp [lastContent, h, fsWrite, hp]
    · simp [lastContent, h]

lemma applyWrites_idem (ws : List WriteEvent) (f : FS) :
    applyWrites (applyWrites f ws) ws = applyWrites f ws := by
  funext p
  rcases h : lastContent ws p with _ | c
  · rw [applyWrites_apply, h, applyWrites_apply, h]
  · rw [applyWrites_apply, h, applyWrites_apply, h]

/-! ### URL scanning: `re.findall(r'(https?://[^\s]+)', text)` -/

/-- Try to match the literal scheme `https://` (preferred by the greedy
optional `s?`) or `http://` at the head of the list, returning the matched
characters and the remainder. -/
def schemeSplit : List Char → Option (List Char × List Char)
  | 'h' :: 't' :: 't' :: 'p' :: 's' :: ':' :: '/' :: '/' :: rest =>
    some (['h', 't', 't', 'p', 's', ':', '/', '/'], rest)
  | 'h' :: 't' :: 't' :: 'p' :: ':' :: '/' :: '/' :: rest =>
    some (['h', 't', 't', 'p', ':', '/', '/'], rest)
  | _ => none

/-- Left-to-right non-overlapping scan of `re.findall`: at each position try
the pattern; a match consumes the scheme plus the maximal non-empty run of
non-whitespace characters, and scanning resumes after it.  The fuel is the
length of the list; each step consumes at least one character. -/
def findall_urls_aux : Nat → List Char → List String
  | 0, _ => []
  | _, [] => []
  | fuel + 1, c :: cs =>
    match schemeSplit (c :: cs) with
    | some (sch, rest) =>
      let run := rest.takeWhile (fun c => !isPySpace c)
      if run.isEmpty then findall_urls_aux fuel cs
      else String.mk (sch ++ run) ::
        findall_urls_aux fuel (rest.dropWhile (fun c => !isPySpace c))
    | none => findall_urls_aux fuel cs

/-- All URL-shaped substrings of `s`, in order of appearance. -/
def findall_urls (s : String) : List String :=
  findall_urls_aux s.data.length s.data

/-! ### Metadata writer (`save_challenge_metadata`, lines 87-96) -/

/-- `save_challenge_metadata(challenge, output_path)`: substitute the fixed
placeholders for missing name/description, open the target for writing
(truncating), write heading plus quoted description, and return the path.
The returned `WriteEvent` carries both the path (the function's return
value) and the written content. -/
def save_challenge_metadata (challenge : Challenge) (output_path : String) :
    WriteEvent :=
  let challenge_name := challenge.name.getD "Unnamed Challenge"
  let challenge_description :=
    challenge.description.getD "No description provided."
  { path := path_join output_path (slugify challenge_name ++ ".md"),
    content := "# " ++ challenge_name ++ "\n\n> " ++ challenge_description ++
      "\n\n-------------------\n\n" }

/-! ### Asset downloader (`download_challenge_assets`, lines 77-85) -/

/-- An HTTP response for a streamed asset: the `content-length` header may
be absent; the body is the byte stream. -/
structure HttpResponse where
  contentLength : Option Nat
  body : List Nat

/-- Everything `download_challenge_assets` does that is observable: the
total it derives from the header, the bytes it writes to the destination
file, and the per-chunk progress advances. -/
structure DownloadTrace where
  total_size : Nat
  fileContent : List Nat
  advances : List Nat
deriving DecidableEq, Repr

/-- Model of `response.iter_content(chunk_size=n)`: split the body into
successive chunks of at most `n` bytes. -/
def iter_content (chunk_size : Nat) (body : List Nat) : List (List Nat) :=
  if h : body = [] then []
  else if h0 : chunk_size = 0 then [body]
  else body.take chunk_size :: iter_content chunk_size (body.drop chunk_size)
termination_by body.length
decreasing_by
  have hb : 0 < body.length := List.length_pos.mpr h
  simp only [List.length_drop]
  omega

/-- `download_challenge_assets`: read `content-length` with default `0`,
then write every truthy (non-empty) chunk to the file in order, advancing
the progress bar by each chunk's length. -/
def download_challenge_assets (response : HttpResponse) : DownloadTrace :=
  let total_size := response.contentLength.getD 0
  let written := (iter_content 1024 response.body).filter
    (fun chunk => !chunk.isEmpty)
  { total_size := total_size,
    fileContent := written.flatten,
    advances := written.map List.length }

lemma iter_content_join (n : Nat) (body : List Nat) :
    (iter_content n body).flatten = body := by
  induction body using iter_content.induct n with
  | case1 => simp [iter_content]
  | case2 x h h0 => simp [iter_content, h, h0]
  | case3 x h h0 ih =>
    rw [iter_content]
    simp only [h, h0, dif_neg, dite_false, List.flatten_cons, ih]
    exact List.take_append_drop n x

lemma iter_content_ne_nil (n : Nat) (body : List Nat) :
    ∀ chunk ∈ iter_content n body, chunk ≠ [] := by
  induction body using iter_content.induct n with
  | case1 => simp [iter_content]
  | case2 x h h0 => simp [iter_content, h, h0]
  | case3 x h h0 ih =>
    rw [iter_content]
    simp only [h, h0, dite_false, List.mem_cons, dif_neg]
    rintro chunk (rfl | hm)
    · have hb : 0 < x.length := List.length_pos.mpr h
      have : 0 < n := Nat.pos_of_ne_zero h0
      simp only [ne_eq, ← List.length_pos, List.length_take]
      omega
    · exact ih chunk hm

lemma flatten_filter_ne_nil (L : List (List Nat)) :
    (L.filter (fun chunk => !chunk.isEmpty)).flatten = L.flatten := by
  induction L with
  | nil => rfl
  | cons chunk L ih =>
    rcases chunk with _ | ⟨b, bs⟩
    · simpa [List.filter] using ih
    · simp [List.filter, ih]

lemma iter_content_le (n : Nat) (hn : n ≠ 0) (body : List Nat) :
    ∀ chunk ∈ iter_content n body, chunk.length ≤ n := by
  induction body using iter_content.induct n with
  | case1 => simp [iter_content]
  | case2 x h h0 => exact absurd h0 hn
  | case3 x h h0 ih =>
    rw [iter_content]
    simp only [h, h0, dite_false, List.mem_cons, dif_neg]
    rintro chunk (rfl | hm)
    · simpa using List.length_take_le n x
    · exact ih chunk hm

/-! ### Synchronization orchestrator (`organize_challenges`, lines 98-148) -/

/-- The folder every challenge artifact lands in. -/
def CHALLENGES_FOLDER : String := "📂 Challenges"

/-- The record the orchestrator works with after the detail fetch:
`fetch_challenge_details(api_url, challenge["id"], headers) or challenge`.
Python's `or` also falls back when the fetched dict is falsy (empty). -/
def challenge_data_of (details : Nat → DetailResponse) (challenge : Challenge) :
    Challenge :=
  match challenge.id with
  | none => challenge
  | some cid =>
    match fetch_challenge_details (details cid) with
    | some d => if d.isFalsy then challenge else d
    | none => challenge

/-- Everything one loop iteration of `organize_challenges` produces for one
challenge: the metadata write, the asset destination paths, and the URLs
appended to `links_to_review`. -/
structure ChallengeStep where
  metaWrite : WriteEvent
  assetPaths : List String
  links : List String
deriving DecidableEq, Repr

/-- One iteration of the `for challenge in challenges` loop, given that the
`challenge["id"]` subscript succeeded. -/
def challenge_step (details : Nat → DetailResponse) (output_dir : String)
    (challenge : Challenge) : ChallengeStep :=
  let challenge_name := challenge.name.getD "Unnamed Challenge"
  let challenge_data := challenge_data_of details challenge
  { metaWrite := save_challenge_metadata challenge_data
      (path_join output_dir CHALLENGES_FOLDER),
    assetPaths := (challenge_data.files.getD []).map (fun file_url =>
      path_join (path_join output_dir CHALLENGES_FOLDER)
        (slugify challenge_name ++ "_" ++ url_basename file_url)),
    links := findall_urls (challenge_data.description.getD "") }

/-- One iteration of the loop; `none` models the uncaught `KeyError` that
`challenge["id"]` raises when the summary entry has no `id` key. -/
def process_challenge (details : Nat → DetailResponse) (output_dir : String)
    (challenge : Challenge) : Option ChallengeStep :=
  match challenge.id with
  | none => none
  | some _ => some (challenge_step details output_dir challenge)

/-- Accumulated state of the challenge loop; `completed = false` means an
uncaught exception unwound out of the loop. -/
structure LoopResult where
  metaWrites : List WriteEvent
  assetPaths : List String
  links : List String
  completed : Bool
deriving DecidableEq, Repr

/-- The `for challenge in challenges` loop.  On an uncaught `KeyError` the
events already performed stay performed and the rest of the list is never
reached. -/
def organize_loop (details : Nat → DetailResponse) (output_dir : String) :
    List Challenge → LoopResult
  | [] => { metaWrites := [], assetPaths := [], links := [], completed := true }
  | c :: cs =>
    match process_challenge details output_dir c with
    | none =>
      { metaWrites := [], assetPaths := [], links := [], completed := false }
    | some step =>
      let r := organize_loop details output_dir cs
      { metaWrites := step.metaWrite :: r.metaWrites,
        assetPaths := step.assetPaths ++ r.assetPaths,
        links := step.links ++ r.links,
        completed := r.completed }

/-- One line of the README index (line 145): built from the summary entry
alone, concatenating category and slug. -/
def readme_entry (challenge : Challenge) : String :=
  let challenge_name := challenge.name.getD "Unnamed Challenge"
  let category := challenge.category.getD "Uncategorized"
  "* [" ++ challenge_name ++ "](<" ++ CHALLENGES_FOLDER ++ "/" ++ category ++
    "_" ++ slugify challenge_name ++ ".md>)\n"

/-- The index entries, one per summary entry, in list order. -/
def readme_entries (challenges : List Challenge) : List String :=
  challenges.map readme_entry

/-- The full README content (lines 140-145). -/
def readme_content (ctf_name : String) (challenges : List Challenge) : String :=
  "# " ++ ctf_name ++ "\n\n## Challenges\n\n" ++
    String.join (readme_entries challenges)

/-- Process exit and write summary of one run. -/
inductive Outcome
  | success
  | exited (code : Nat)
  | keyError
deriving DecidableEq, Repr

/-- Observable trace of a run: every write, the README (absent when the run
died before reaching it), the collected external links, whether the
advisory line was printed, and how the process ended. -/
structure RunTrace where
  metaWrites : List WriteEvent
  assetPaths : List String
  readme : Option WriteEvent
  links : List String
  advisory : Bool
  outcome : Outcome
deriving DecidableEq, Repr

/-- `organize_challenges(challenges, output_dir, session, headers, api_url,
update_existing, ctf_name)`.  The `update_existing` flag is accepted and
never consulted, exactly as in the source. -/
def organize_challenges (challenges : List Challenge) (output_dir : String)
    (details : Nat → DetailResponse) (update_existing : Bool)
    (ctf_name : String) : RunTrace :=
  let r := organize_loop details output_dir challenges
  if r.completed then
    { metaWrites := r.metaWrites,
      assetPaths := r.assetPaths,
      readme := some { path := path_join output_dir "README.md",
                       content := readme_content ctf_name challenges },
      links := r.links,
      advisory := !r.links.isEmpty,
      outcome := .success }
  else
    { metaWrites := r.metaWrites,
      assetPaths := r.assetPaths,
      readme := none,
      links := r.links,
      advisory := false,
      outcome := .keyError }

/-- `main` from `fetch_challenges` onward: a fatal list fetch exits with
code 1 before anything is written; otherwise the orchestrator runs. -/
def run_main (listResp : ListResponse) (details : Nat → DetailResponse)
    (output_dir : String) (update : Bool) (ctf_name : String) : RunTrace :=
  match fetch_challenges listResp with
  | .error code =>
    { metaWrites := [], assetPaths := [], readme := none, links := [],
      advisory := false, outcome := .exited code }
  | .ok challenges =>
    organize_challenges challenges output_dir details update ctf_name

/-! ### Loop lemmas -/

lemma process_challenge_some (details : Nat → DetailResponse)
    (output_dir : String) (c : Challenge) (h : c.id.isSome) :
    process_challenge details output_dir c =
      some (challenge_step details output_dir c) := by
  rcases hc : c.id with _ | cid
  · rw [hc] at h
    simp [Option.isSome] at h
  · simp [process_challenge, hc]

lemma organize_loop_eq (details : Nat → DetailResponse) (output_dir : String)
    (cs : List Challenge) (h : ∀ c ∈ cs, c.id.isSome) :
    organize_loop details output_dir cs =
      { metaWrites :=
          cs.map (fun c => (challenge_step details output_dir c).metaWrite),
        assetPaths :=
          (cs.map (fun c => (challenge_step details output_dir c).assetPaths)).flatten,
        links :=
          (cs.map (fun c => (challenge_step details output_dir c).links)).flatten,
        completed := true } := by
  induction cs with
  | nil => rfl
  | cons c cs ih =>
    have hc : c.id.isSome := h c (List.mem_cons_self c cs)
    have hcs : ∀ x ∈ cs, x.id.isSome := fun x hx => h x (List.mem_cons_of_mem c hx)
    simp [organize_loop, process_challenge_some details output_dir c hc, ih hcs]

lemma organize_loop_abort (details : Nat → DetailResponse) (output_dir : String)
    (cs : List Challenge) (h : ∃ c ∈ cs, c.id = none) :
    (organize_loop details output_dir cs).completed = false := by
  induction cs with
  | nil => simp at h
  | cons c cs ih =>
    rcases hc : c.id with _ | cid
    · simp [organize_loop, process_challenge, hc]
    · rcases h with ⟨x, hx, hxid⟩
      rcases List.mem_cons.mp hx with rfl | hxcs
      · rw [hc] at hxid
        cases hxid
      · simp only [organize_loop, process_challenge, hc]
        simp [ih ⟨x, hxcs, hxid⟩]

/-! ## Claims -/

/-- C5: `slugify` is a total deterministic function equal to the reference
transform of the specification (lowercase, collapse whitespace runs to a
single dash, drop characters outside `[a-z0-9-]`, trim dashes, put the fixed
marker in front); every input yields a string beginning with the fixed
marker, and `slugify "SQL Injection 101!!!"` is `"🔲 sql-injection-101"`. -/
theorem C5_slugify_spec (s : String) :
    slugify s = ref_slugify s
  ∧ (∃ rest : String, slugify s = "🔲 " ++ rest)
  ∧ slugify "SQL Injection 101!!!" = "🔲 sql-injection-101" :=
  ⟨slugify_eq_ref s,
   ⟨String.mk (stripDashes (List.filter isAllowed
      (collapseWSAux false (s.data.map Char.toLower)))), rfl⟩,
   by decide⟩

/-- C4: the update flag is accepted but never consulted, so a run with the
flag enabled produces exactly the same trace (same files, same contents,
same outcome) as a run with it disabled, for every challenge list and
remote state. -/
theorem C4_update_flag_no_effect (listResp : ListResponse)
    (details : Nat → DetailResponse) (output_dir ctf_name : String) :
    run_main listResp details output_dir true ctf_name
      = run_main listResp details output_dir false ctf_name := by
  cases listResp <;> rfl

/-- C2 counterexample: a valid-JSON list response whose envelope lacks the
`data` field does not abort the run, contrary to the claim:
`.get("data", [])` silently yields the empty list and the run completes
with outcome `success` (exit 0). -/
theorem C2_missing_data_not_fatal :
    fetch_challenges (.envelope none) = .ok []
  ∧ (run_main (.envelope none) (fun _ => .malformed) "out" false "ctf").outcome
      = .success :=
  ⟨rfl, rfl⟩

/-- C2 (amended): a malformed-JSON list response makes `fetch_challenges`
abort the run with exit status 1 and zero challenge files written; a valid
envelope missing the `data` field instead yields the empty challenge list,
so the run proceeds, writes zero challenge metadata files, and succeeds. -/
theorem C2_amended_list_failure (details : Nat → DetailResponse)
    (output_dir ctf_name : String) (update : Bool) :
    ((run_main .malformed details output_dir update ctf_name).outcome
        = .exited 1
      ∧ (run_main .malformed details output_dir update ctf_name).metaWrites = []
      ∧ (run_main .malformed details output_dir update ctf_name).readme = none)
  ∧ ((run_main (.envelope none) details output_dir update ctf_name).outcome
        = .success
      ∧ (run_main (.envelope none) details output_dir update
          ctf_name).metaWrites = []) :=
  ⟨⟨rfl, rfl, rfl⟩, rfl, rfl⟩

/-- C6: re-running the pipeline against the same unchanged remote state with
update mode disabled is deterministic and, because every write truncates and
replaces, re-applying the whole write list of a run to the file system it
already produced leaves every file byte-identical. -/
theorem C6_rerun_idempotent (fs : FS) (listResp : ListResponse)
    (details : Nat → DetailResponse) (output_dir ctf_name : String) :
    run_main listResp details output_dir false ctf_name
      = run_main listResp details output_dir false ctf_name
  ∧ applyWrites
      (applyWrites fs
        ((run_main listResp details output_dir false ctf_name).metaWrites ++
          (run_main listResp details output_dir false ctf_name).readme.toList))
      ((run_main listResp details output_dir false ctf_name).metaWrites ++
        (run_main listResp details output_dir false ctf_name).readme.toList)
    = applyWrites fs
        ((run_main listResp details output_dir false ctf_name).metaWrites ++
          (run_main listResp details output_dir false ctf_name).readme.toList) :=
  ⟨rfl, applyWrites_idem _ _⟩

/-- C1: the claim that the metadata file is written at
`<category>_<slug>.md` under the Challenges folder and that the index entry
links to exactly the written path fails on the code: for a challenge named
"Web One" in category "Web" (detail fetch succeeding with the same record),
the metadata file is written at `📂 Challenges/🔲 web-one.md` — without the
category — while the index entry links to
`📂 Challenges/Web_🔲 web-one.md`, a path at which nothing was written.  The
source computes the `<category>_<slug>.md` path into `challenge_file_path`
(line 120) and never uses it. -/
theorem C1_metadata_path_divergence :
    ((run_main
        (.envelope (some
          [(⟨some 1, some "Web One", some "Web", some "d", some []⟩ :
            Challenge)]))
        (fun _ => .envelope (some
          (⟨some 1, some "Web One", some "Web", some "d", some []⟩ :
            Challenge)))
        "out" false "MyCTF").metaWrites.map WriteEvent.path)
      = ["out/📂 Challenges/🔲 web-one.md"]
  ∧ readme_entry
      (⟨some 1, some "Web One", some "Web", some "d", some []⟩ : Challenge)
      = "* [Web One](<📂 Challenges/Web_🔲 web-one.md>)\n"
  ∧ "out/📂 Challenges/🔲 web-one.md"
      ≠ path_join "out" (CHALLENGES_FOLDER ++ "/" ++ "Web_🔲 web-one.md") :=
  ⟨rfl, rfl, by decide⟩

/-- Conclusion of claim C3: with detail failures for an arbitrary subset of
the challenges, the run succeeds, writes one metadata file per summary, one
index entry per summary, returns `none` from the detail fetch exactly on
malformed or data-less responses, and substitutes the summary record
whenever the detail fetch came back `none`. -/
def DetailDegradationSound (challenges : List Challenge)
    (details : Nat → DetailResponse) (output_dir ctf_name : String)
    (update : Bool) : Prop :=
  (organize_challenges challenges output_dir details update ctf_name).outcome
      = .success
  ∧ (organize_challenges challenges output_dir details update
      ctf_name).metaWrites.length = challenges.length
  ∧ (organize_challenges challenges output_dir details update ctf_name).readme
      = some { path := path_join output_dir "README.md",
               content := readme_content ctf_name challenges }
  ∧ (readme_entries challenges).length = challenges.length
  ∧ (∀ r : DetailResponse, r = .malformed ∨ r = .envelope none →
      fetch_challenge_details r = none)
  ∧ (∀ c ∈ challenges, ∀ cid, c.id = some cid →
      fetch_challenge_details (details cid) = none →
      challenge_data_of details c = c)

/-- C3: for every challenge list whose summaries carry ids, however the
per-challenge detail fetches fail (malformed JSON or missing `data` for any
subset), the run writes exactly N metadata files and N index entries, exits
successfully, and each failing challenge is processed with its summary
record substituted. -/
theorem C3_detail_failure_degrades (challenges : List Challenge)
    (details : Nat → DetailResponse) (output_dir ctf_name : String)
    (update : Bool) (h : ∀ c ∈ challenges, c.id.isSome) :
    DetailDegradationSound challenges details output_dir ctf_name update := by
  have hloop := organize_loop_eq details output_dir challenges h
  refine ⟨?_, ?_, ?_, ?_, ?_, ?_⟩
  · simp [organize_challenges, hloop]
  · simp [organize_challenges, hloop]
  · simp [organize_challenges, hloop]
  · simp [readme_entries]
  · rintro r (rfl | rfl) <;> rfl
  · intro c _ cid hcid hfetch
    simp [challenge_data_of, hcid, hfetch]

/-- Witness for C3 at a concrete two-challenge list whose detail fetches
both fail, one with malformed JSON and one with a missing `data` field. -/
theorem C3_degrades_witness :
    (∀ c ∈ [(⟨some 1, some "Alpha", some "Web", none, none⟩ : Challenge),
            (⟨some 2, some "Beta", none, none, none⟩ : Challenge)],
      c.id.isSome)
  ∧ DetailDegradationSound
      [(⟨some 1, some "Alpha", some "Web", none, none⟩ : Challenge),
       (⟨some 2, some "Beta", none, none, none⟩ : Challenge)]
      (fun i => if i = 1 then .malformed else .envelope none)
      "out" "ctf" false :=
  ⟨by decide,
   C3_detail_failure_degrades
     [(⟨some 1, some "Alpha", some "Web", none, none⟩ : Challenge),
      (⟨some 2, some "Beta", none, none, none⟩ : Challenge)]
     (fun i => if i = 1 then .malformed else .envelope none)
     "out" "ctf" false (by decide)⟩

/-- C7: the downloader splits the body into chunks of at most 1024 bytes,
writes exactly the transferred chunks in order (so the file's content is the
whole body and its size equals the bytes advanced on the progress bar), and
a response without a `content-length` header still completes, with total
reported as 0. -/
theorem C7_download_stream (response : HttpResponse) :
    (download_challenge_assets response).fileContent = response.body
  ∧ (download_challenge_assets response).fileContent.length
      = (download_challenge_assets response).advances.sum
  ∧ (∀ chunk ∈ iter_content 1024 response.body, chunk.length ≤ 1024)
  ∧ (response.contentLength = none →
      (download_challenge_assets response).total_size = 0) := by
  refine ⟨?_, ?_, ?_, ?_⟩
  · show ((iter_content 1024 response.body).filter
      (fun chunk => !chunk.isEmpty)).flatten = response.body
    rw [flatten_filter_ne_nil, iter_content_join]
  · show _ = (((iter_content 1024 response.body).filter
      (fun chunk => !chunk.isEmpty)).map List.length).sum
    exact List.length_flatten _
  · exact iter_content_le 1024 (by decide) response.body
  · intro hnone
    show response.contentLength.getD 0 = 0
    rw [hnone]
    rfl

/-- Witness for C7 at a concrete response carrying three bytes and no
`content-length` header. -/
theorem C7_download_witness :
    (download_challenge_assets ⟨none, [10, 20, 30]⟩).fileContent = [10, 20, 30]
  ∧ (download_challenge_assets ⟨none, [10, 20, 30]⟩).fileContent.length
      = (download_challenge_assets ⟨none, [10, 20, 30]⟩).advances.sum
  ∧ (∀ chunk ∈ iter_content 1024 [10, 20, 30], chunk.length ≤ 1024)
  ∧ ((⟨none, [10, 20, 30]⟩ : HttpResponse).contentLength = none →
      (download_challenge_assets ⟨none, [10, 20, 30]⟩).total_size = 0) :=
  C7_download_stream ⟨none, [10, 20, 30]⟩

/-- Conclusion of claim C8: the collected link list is the concatenation, in
challenge-list order, of the URL matches of each processed (possibly
degraded) description, duplicates kept; the advisory fires exactly when the
collection is non-empty; and the outcome stays successful either way. -/
def LinksCollectionSound (challenges : List Challenge)
    (details : Nat → DetailResponse) (output_dir ctf_name : String)
    (update : Bool) : Prop :=
  (organize_challenges challenges output_dir details update ctf_name).links
      = (challenges.map (fun c =>
          findall_urls ((challenge_data_of details c).description.getD
            ""))).flatten
  ∧ ((organize_challenges challenges output_dir details update
        ctf_name).advisory = true
      ↔ (organize_challenges challenges output_dir details update
          ctf_name).links ≠ [])
  ∧ (organize_challenges challenges output_dir details update ctf_name).outcome
      = .success

/-- C8: for every run over summaries that carry ids, the external-link
collection is exactly the concatenation of the URL-shaped matches of each
challenge's effective description, verbatim and without deduplication; the
advisory is emitted iff the collection is non-empty; the exit status is
unaffected. -/
theorem C8_links_collection (challenges : List Challenge)
    (details : Nat → DetailResponse) (output_dir ctf_name : String)
    (update : Bool) (h : ∀ c ∈ challenges, c.id.isSome) :
    LinksCollectionSound challenges details output_dir ctf_name update := by
  have hloop := organize_loop_eq details output_dir challenges h
  refine ⟨?_, ?_, ?_⟩
  · simp only [organize_challenges, hloop]
    simp [challenge_step]
  · simp only [organize_challenges, hloop]
    simp [List.isEmpty_iff]
  · simp [organize_challenges, hloop]

/-- Witness for C8: two challenges whose descriptions each contain the same
URL, so the collection keeps the duplicate. -/
theorem C8_links_witness :
    (∀ c ∈ [(⟨some 1, some "A", none, some "go http://a.b now", none⟩ :
              Challenge),
            (⟨some 2, some "B", none, some "go http://a.b now", none⟩ :
              Challenge)],
      c.id.isSome)
  ∧ LinksCollectionSound
      [(⟨some 1, some "A", none, some "go http://a.b now", none⟩ : Challenge),
       (⟨some 2, some "B", none, some "go http://a.b now", none⟩ : Challenge)]
      (fun _ => .malformed) "out" "ctf" false :=
  ⟨by decide,
   C8_links_collection
     [(⟨some 1, some "A", none, some "go http://a.b now", none⟩ : Challenge),
      (⟨some 2, some "B", none, some "go http://a.b now", none⟩ : Challenge)]
     (fun _ => .malformed) "out" "ctf" false (by decide)⟩

/-- C9: `save_challenge_metadata` always overwrites the target (whatever the
file system held before, afterwards the path holds exactly the new content),
writes the name as a heading followed by the description as a quoted block,
substitutes the fixed placeholders when name or description is missing, and
returns the path it wrote. -/
theorem C9_save_metadata_contract (challenge : Challenge)
    (output_path : String) (fs : FS) :
    applyWrites fs [save_challenge_metadata challenge output_path]
        (save_challenge_metadata challenge output_path).path
      = some (save_challenge_metadata challenge output_path).content
  ∧ (save_challenge_metadata challenge output_path).path
      = path_join output_path
          (slugify (challenge.name.getD "Unnamed Challenge") ++ ".md")
  ∧ (save_challenge_metadata challenge output_path).content
      = "# " ++ challenge.name.getD "Unnamed Challenge" ++ "\n\n> "
        ++ challenge.description.getD "No description provided."
        ++ "\n\n-------------------\n\n"
  ∧ (challenge.name = none →
      (save_challenge_metadata challenge output_path).content
        = "# Unnamed Challenge\n\n> "
          ++ challenge.description.getD "No description provided."
          ++ "\n\n-------------------\n\n")
  ∧ (challenge.description = none →
      (save_challenge_metadata challenge output_path).content
        = "# " ++ challenge.name.getD "Unnamed Challenge"
          ++ "\n\n> No description provided.\n\n-------------------\n\n") := by
  refine ⟨?_, rfl, rfl, ?_, ?_⟩
  · simp [applyWrites, fsWrite]
  · intro hname
    simp [save_challenge_metadata, hname]
  · intro hdesc
    simp only [save_challenge_metadata, hdesc, Option.getD_none]
    rw [String.append_assoc, String.append_assoc]
    congr 1

/-- Witness for C9 at a record missing both name and description, on a
file system that already holds different content at the target path. -/
theorem C9_save_metadata_witness :
    applyWrites (fun _ => some "old")
        [save_challenge_metadata (⟨some 7, none, none, none, none⟩ : Challenge)
          "out"]
        (save_challenge_metadata (⟨some 7, none, none, none, none⟩ : Challenge)
          "out").path
      = some (save_challenge_metadata
          (⟨some 7, none, none, none, none⟩ : Challenge) "out").content
  ∧ (save_challenge_metadata (⟨some 7, none, none, none, none⟩ : Challenge)
        "out").content
      = "# Unnamed Challenge\n\n> "
        ++ ((⟨some 7, none, none, none, none⟩ :
            Challenge)).description.getD "No description provided."
        ++ "\n\n-------------------\n\n"
  ∧ (save_challenge_metadata (⟨some 7, none, none, none, none⟩ : Challenge)
        "out").content
      = "# " ++ ((⟨some 7, none, none, none, none⟩ :
            Challenge)).name.getD "Unnamed Challenge"
        ++ "\n\n> No description provided.\n\n-------------------\n\n" :=
  ⟨(C9_save_metadata_contract (⟨some 7, none, none, none, none⟩ : Challenge)
      "out" (fun _ => some "old")).1,
   (C9_save_metadata_contract (⟨some 7, none, none, none, none⟩ : Challenge)
      "out" (fun _ => some "old")).2.2.2.1 rfl,
   (C9_save_metadata_contract (⟨some 7, none, none, none, none⟩ : Challenge)
      "out" (fun _ => some "old")).2.2.2.2 rfl⟩

/-- C10: any challenge list containing a summary entry without an `id` key
makes the loop raise an uncaught `KeyError` at the detail-fetch call
(`challenge["id"]`), aborting the run before the index file is written — the
summary-fallback degradation does not isolate a malformed summary entry. -/
theorem C10_missing_id_aborts (challenges : List Challenge)
    (details : Nat → DetailResponse) (output_dir ctf_name : String)
    (update : Bool) (h : ∃ c ∈ challenges, c.id = none) :
    (organize_challenges challenges output_dir details update ctf_name).outcome
        = .keyError
  ∧ (organize_challenges challenges output_dir details update ctf_name).readme
        = none := by
  have habort := organize_loop_abort details output_dir challenges h
  constructor <;> simp [organize_challenges, habort]

/-- Witness for C10 at a concrete one-element list whose summary entry has
no id. -/
theorem C10_missing_id_witness :
    (∃ c ∈ [(⟨none, some "X", none, none, none⟩ : Challenge)], c.id = none)
  ∧ (organize_challenges [(⟨none, some "X", none, none, none⟩ : Challenge)]
        "out" (fun _ => .malformed) false "ctf").outcome = .keyError
  ∧ (organize_challenges [(⟨none, some "X", none, none, none⟩ : Challenge)]
        "out" (fun _ => .malformed) false "ctf").readme = none :=
  ⟨by decide,
   C10_missing_id_aborts [(⟨none, some "X", none, none, none⟩ : Challenge)]
     (fun _ => .malformed) "out" "ctf" false (by decide)⟩

end CtfdDownload
